import Mathlib

/-!
Verification development for the aa-proxy-rs core: a shallow embedding of
`src/bluetooth.rs` (Bluetooth RFCOMM Wi-Fi-credential handshake) and
`src/io_uring.rs` (bidirectional proxy loop, transfer monitor, session
supervisor), together with theorems settling the frozen claims about them.

Conventions of the embedding:
* byte streams are `List Nat` with every element `< 256`;
* Rust `Result<T, E>` becomes `Except BtError T` (or an explicit outcome
  inductive where the control flow matters);
* machine-integer truncation (`as u16`) is explicit `% 65536`;
* external I/O (BlueZ, protobuf serialisation, the io_uring runtime) is
  abstracted into parameters: a read from a stream consumes a prefix of the
  `List Nat`, a write is modelled as accepting the whole submitted slice.
-/

namespace AAProxy

/-! ### Bluetooth handshake: data model (src/bluetooth.rs) -/

/-- `HEADER_LEN` from src/bluetooth.rs: 2 bytes length + 2 bytes MessageID. -/
def HEADER_LEN : Nat := 4

/-- The `MessageId` enum from src/bluetooth.rs (`#[repr(u16)]`). -/
inductive MessageId where
  | WifiStartRequest
  | WifiInfoRequest
  | WifiInfoResponse
  | WifiVersionRequest
  | WifiVersionResponse
  | WifiConnectStatus
  | WifiStartResponse
  deriving DecidableEq, Repr

/-- The discriminant of each `MessageId` (`id as u16` in the source). -/
def MessageId.toU16 : MessageId → Nat
  | .WifiStartRequest => 1
  | .WifiInfoRequest => 2
  | .WifiInfoResponse => 3
  | .WifiVersionRequest => 4
  | .WifiVersionResponse => 5
  | .WifiConnectStatus => 6
  | .WifiStartResponse => 7

/-- Errors the embedded handshake code can raise.  In the source all of them
are boxed `dyn Error` strings; we keep them apart so theorems can name them. -/
inductive BtError where
  /-- `read_exact` failed: the stream ended before the requested count. -/
  | unexpectedEof
  /-- "Received data has invalid MessageID: got: .., expected: .." -/
  | protocolMismatch (got : Nat) (expected : MessageId)
  /-- "phone cannot connect to our WiFi AP..." -/
  | phoneWifiJoinFailed
  deriving DecidableEq, Repr

/-- Big-endian 16-bit encoding (`write_u16` on a `Vec<u8>`). -/
def be16 (x : Nat) : List Nat := [x / 256 % 256, x % 256]

/-- Big-endian 16-bit decoding (`u16::from_be_bytes`). -/
def fromBe16 (hi lo : Nat) : Nat := hi * 256 + lo

/-! ### send_message (src/bluetooth.rs lines 257-279)

The source serialises the protobuf message to `data`, then builds
`packet = (data.len() as u16) BE ++ (id as u16) BE ++ data` and submits it in
one `stream.write`.  Protobuf serialisation and the raw socket write are
external; the embedding takes the serialised body as input and returns the
packet the code submits.  Note the source truncates the length with `as u16`
and has no length check. -/

/-- The exact byte packet `send_message` submits for body `data`. -/
def send_message (id : MessageId) (data : List Nat) : List Nat :=
  be16 (data.length % 65536) ++ be16 (id.toU16 % 65536) ++ data

/-- The body length announced by a packet's first two header bytes. -/
def declaredBodyLen (packet : List Nat) : Nat :=
  fromBe16 packet[0]! packet[1]!

/-- The number of body bytes actually appended after the 4-byte header. -/
def appendedBodyLen (packet : List Nat) : Nat := packet.length - HEADER_LEN

/-! ### read_message (src/bluetooth.rs lines 281-331)

`read_message(stream, stage, id, started)`:
1. `read_exact` 4 header bytes (fails if the stream ends first);
2. `len` := BE16 of bytes 0..1, `message_id` := BE16 of bytes 2..3;
3. if `message_id != id as u16`, return the invalid-MessageID error
   (no body bytes are read on this path);
4. if `len > 0`, `read_exact` `len` body bytes; when
   `id == WifiConnectStatus && n >= 2` and `buf[1] != 0`, return the
   phone-cannot-connect error;
5. return `HEADER_LEN + len`.

The embedding threads the stream explicitly: the second component of the
result is what remains of the input stream after the call, so theorems can
speak about how many bytes were consumed even on the error paths. -/

/-- One `read_message` call on input stream `input`, expecting `id`.
Returns (outcome, remaining stream). -/
def read_message (id : MessageId) (input : List Nat) :
    Except BtError Nat × List Nat :=
  if 4 ≤ input.length then
    let len := fromBe16 input[0]! input[1]!
    let message_id := fromBe16 input[2]! input[3]!
    let rest := input.drop 4
    if message_id ≠ id.toU16 then
      (.error (.protocolMismatch message_id id), rest)
    else if len = 0 then
      (.ok (HEADER_LEN + len), rest)
    else if len ≤ rest.length then
      let body := rest.take len
      if id = MessageId.WifiConnectStatus ∧ 2 ≤ len ∧ body[1]! ≠ 0 then
        (.error .phoneWifiJoinFailed, rest.drop len)
      else
        (.ok (HEADER_LEN + len), rest.drop len)
    else
      (.error .unexpectedEof, [])
  else
    (.error .unexpectedEof, [])

/-! ### bluetooth_setup_connection (src/bluetooth.rs lines 371-433)

After `power_up_and_wait_for_connection` yields the RFCOMM stream, the
function runs the five handshake stages in straight-line code:
stage 1 `send_message WifiStartRequest`, stage 2 `read_message WifiInfoRequest`,
stage 3 `send_message WifiInfoResponse`, stage 4 `read_message WifiStartResponse`,
stage 5 `read_message WifiConnectStatus`; every call is followed by `?`, so the
first error returns immediately.  Only after stage 5 succeeds does it run
`tcp_start.notify_one()` and `stream.shutdown()`.

The embedding records the observable actions in a trace.  Protobuf bodies of
the two outgoing messages are taken as parameters (their serialisation is
external); the phone's bytes are the input stream. -/

/-- Observable events of one `bluetooth_setup_connection` run. -/
inductive HsEvent where
  /-- `send_message` submitted a frame with this id. -/
  | sent (id : MessageId)
  /-- `read_message` returned Ok for a frame with this id. -/
  | received (id : MessageId)
  /-- `tcp_start.notify_one()` was called. -/
  | tcpStartNotified
  /-- `stream.shutdown()` was called. -/
  | streamShutdown
  deriving DecidableEq, Repr

/-- The handshake part of `bluetooth_setup_connection`: outcome plus the trace
of events, given the serialised bodies of the two outgoing messages and the
byte stream arriving from the phone. -/
def bluetooth_setup_connection (startReqBody infoBody : List Nat)
    (input : List Nat) : Except BtError Unit × List HsEvent :=
  -- stage 1: send WifiStartRequest
  let _pkt1 := send_message .WifiStartRequest startReqBody
  let t1 : List HsEvent := [.sent .WifiStartRequest]
  -- stage 2: read WifiInfoRequest
  match read_message .WifiInfoRequest input with
  | (.error e, _) => (.error e, t1)
  | (.ok _, rest1) =>
    -- stage 3: send WifiInfoResponse
    let _pkt2 := send_message .WifiInfoResponse infoBody
    let t2 := t1 ++ [.received .WifiInfoRequest, .sent .WifiInfoResponse]
    -- stage 4: read WifiStartResponse
    match read_message .WifiStartResponse rest1 with
    | (.error e, _) => (.error e, t2)
    | (.ok _, rest2) =>
      let t3 := t2 ++ [.received .WifiStartResponse]
      -- stage 5: read WifiConnectStatus
      match read_message .WifiConnectStatus rest2 with
      | (.error e, _) => (.error e, t3)
      | (.ok _, _) =>
        (.ok (), t3 ++ [.received .WifiConnectStatus,
                        .tcpStartNotified, .streamShutdown])

/-- How many times a run notified `tcp_start`. -/
def tcpNotifyCount (trace : List HsEvent) : Nat :=
  trace.count .tcpStartNotified

/-- The full success trace: the five stages in order, then the notification
and the stream shutdown. -/
def successTrace : List HsEvent :=
  [.sent .WifiStartRequest, .received .WifiInfoRequest,
   .sent .WifiInfoResponse, .received .WifiStartResponse,
   .received .WifiConnectStatus, .tcpStartNotified, .streamShutdown]

/-! ### CPU serial-number suffix and adapter alias
(src/bluetooth.rs lines 61-69 and 79-87)

`get_cpu_serial_number_suffix` reads `/sys/firmware/devicetree/base/serial-number`;
a failed read is `Err` (modelled by `none` for the file contents).  On a
successful read it returns `contents[10..16]` when `contents.len() == 17` and
the *empty string* otherwise.  `power_up_and_wait_for_connection` then builds
the alias: a supplied `btalias` wins; else `format!("{}-{}", BT_ALIAS, suffix)`
on `Ok(suffix)` and the bare `BT_ALIAS` only on `Err`.  The file contents are
ASCII, so Rust byte indexing agrees with character indexing. -/

/-- `BT_ALIAS` from src/bluetooth.rs. -/
def BT_ALIAS : String := "WirelessAADongle"

/-- `get_cpu_serial_number_suffix`: `none` input = the file read failed. -/
def get_cpu_serial_number_suffix (file : Option String) : Option String :=
  match file with
  | none => none
  | some contents =>
      if contents.length = 17 then
        some (String.mk ((contents.toList.drop 10).take 6))
      else
        some ""

/-- The alias `power_up_and_wait_for_connection` passes to `set_alias`. -/
def computeAlias (btalias : Option String) (file : Option String) : String :=
  match btalias with
  | some a => a
  | none =>
      match get_cpu_serial_number_suffix file with
      | some suffix => BT_ALIAS ++ "-" ++ suffix
      | none => BT_ALIAS

/-! ### Proxy constants (src/io_uring.rs, crate::mitm)

`BUFFER_LEN` is declared in src/io_uring.rs.  `HEADER_LENGTH`,
`FRAME_TYPE_MASK` and `FRAME_TYPE_FIRST` are imported there from
`crate::mitm`, whose source is not part of this snapshot. -/

/-- `BUFFER_LEN` from src/io_uring.rs: `16 * 1024`. -/
def BUFFER_LEN : Nat := 16 * 1024

/-- Modelled from the spec: `HEADER_LENGTH` of crate::mitm is missing from the
snapshot; §4.4 reads "exactly 4 bytes of header". -/
def HEADER_LENGTH : Nat := 4

/-- Modelled from the spec: `FRAME_TYPE_MASK` of crate::mitm is missing from
the snapshot; §6 tests `flags & 0b0011`. -/
def FRAME_TYPE_MASK : Nat := 3

/-- Modelled from the spec: `FRAME_TYPE_FIRST` of crate::mitm is missing from
the snapshot; §6 declares a FIRST fragment by `flags & 0b0011 == 0b0010`. -/
def FRAME_TYPE_FIRST : Nat := 2

/-! ### copy in frame-aware mode (src/io_uring.rs lines 75-171)

One iteration of `copy` with `full_frames = true`:
1. `from.read(buf.slice(..HEADER_LENGTH))` — a single read of capacity 4;
2. `n == 0` ⇒ `return Ok(())` (EOF); `n != HEADER_LENGTH` ⇒ `return Ok(())`
   ("this is unexpected" — no retry, no error);
3. `message_length := buf[3] + (buf[2] << 8)`, plus 4 when
   `buf[1] & FRAME_TYPE_MASK == FRAME_TYPE_FIRST`;
4. `HEADER_LENGTH + message_length > BUFFER_LEN` ⇒ panic;
5. loop reading `buf.slice(n..n+remain)` until `remain = 0`; a zero read
   inside the loop is again `return Ok(())`;
6. `to.write(buf.slice(..n)).submit()` and `bytes_written.fetch_add(n)`.

The endpoint read is modelled by a schedule: the i-th read returns
`min (min (max 1 sched_i) capacity) available` bytes — at least one byte
while data remains, zero exactly at EOF, never more than the submitted
slice capacity.  Reads land at offset `n` of the buffer, directly after the
bytes already read this iteration, so the buffer prefix `buf[..n]` is the
concatenation of the chunks read, which the model carries as `acc`.  The
write is modelled as accepting the whole submitted slice. -/

/-- Number of bytes a single read returns: stream `stream`, slice capacity
`cap`, schedule entry `s`. -/
def readLen (stream : List Nat) (cap s : Nat) : Nat :=
  if stream = [] then 0 else min (min (max 1 s) cap) stream.length

/-- The body-read loop (`while remain > 0` in `copy`), with `fuel`
bounding the number of reads.  `none` models the mid-message zero read
(EOF): the source then runs `return Ok(())`.  Each read consumes at least
one byte, so `fuel = remain` suffices (see `readBody`). -/
def readBodyAux : Nat → Nat → List Nat → List Nat → List Nat →
    Option (List Nat × List Nat × List Nat)
  | _, 0, acc, stream, sched => some (acc, stream, sched)
  | 0, _ + 1, _, _, _ => none
  | fuel + 1, remain + 1, acc, stream, sched =>
      if stream = [] then none
      else
        let k := readLen stream (remain + 1) (sched.headD 0)
        readBodyAux fuel (remain + 1 - k) (acc ++ stream.take k)
          (stream.drop k) sched.tail

/-- Read exactly `remain` further bytes after the already-read `acc`,
retrying short reads; returns the filled prefix, the rest of the stream and
the rest of the schedule, or `none` when the stream ends first. -/
def readBody (acc stream sched : List Nat) (remain : Nat) :
    Option (List Nat × List Nat × List Nat) :=
  readBodyAux remain remain acc stream sched

/-- The message length `copy` computes from a 4-byte header. -/
def msgLen (hdr : List Nat) : Nat :=
  let base := hdr[3]! + hdr[2]! * 256
  if hdr[1]! &&& FRAME_TYPE_MASK = FRAME_TYPE_FIRST then base + 4 else base

/-- How the single header read of one `copy` iteration ends. -/
def headerReadLen (stream sched : List Nat) : Nat :=
  readLen stream HEADER_LENGTH (sched.headD 0)

/-- Outcome of one `copy` iteration in frame-aware mode. -/
inductive IterOutcome where
  /-- a zero-byte read: `return Ok(())`. -/
  | eofClean
  /-- the header read returned `n ∉ {0, HEADER_LENGTH}` bytes:
  `return Ok(())` with nothing written. -/
  | shortHeader (n : Nat)
  /-- `HEADER_LENGTH + message_length > BUFFER_LEN`:
  `panic!("Not enough space in the buffer")`. -/
  | oversize
  /-- the frame was written to the destination; the loop continues on
  `rest` with schedule `sched`. -/
  | wrote (out rest sched : List Nat)
  deriving DecidableEq, Repr

/-- One iteration of `copy` with `full_frames = true` on input `stream`
under read schedule `sched`. -/
def copyIterFF (stream sched : List Nat) : IterOutcome :=
  let k := headerReadLen stream sched
  if k = 0 then .eofClean
  else if k ≠ HEADER_LENGTH then .shortHeader k
  else
    let hdr := stream.take HEADER_LENGTH
    let rest := stream.drop HEADER_LENGTH
    let message_length := msgLen hdr
    if HEADER_LENGTH + message_length > BUFFER_LEN then .oversize
    else
      match readBody hdr rest sched.tail message_length with
      | none => .eofClean
      | some (acc, st, sc) => .wrote acc st sc

/-- The `bytes_written.fetch_add` increment an iteration performs. -/
def iterWriteDelta : IterOutcome → Nat
  | .wrote out _ _ => out.length
  | _ => 0

/-- What the task's `JoinHandle` reports for each terminal iteration
outcome: `Ok(())` returns join as `some (.ok ())`; the panic unwinds the
task, so joining yields a `JoinError`, modelled `none`.  `.wrote` is not a
return (the loop continues); joining is not observed there. -/
def copyTaskJoin : IterOutcome → Option (Except String Unit)
  | .eofClean => some (.ok ())
  | .shortHeader _ => some (.ok ())
  | .oversize => none
  | .wrote _ _ _ => some (.ok ())

/-- `flatten` from src/io_uring.rs lines 254-260: a task join error
(panicked or cancelled task, modelled `none`) becomes
`Err("handling failed")`. -/
def flatten (joined : Option (Except String Unit)) : Except String Unit :=
  match joined with
  | some (.ok r) => .ok r
  | some (.error e) => .error e
  | none => .error "handling failed"

/-! ### transfer_monitor (src/io_uring.rs lines 173-246)

The loop body runs once per 100 ms tick.  The stats branch writes only
`usb_bytes_out_last`, `tcp_bytes_out_last` and `report_time`, none of which
the stall branch reads, so the embedding carries the stall-relevant state:
the two `stall_*_bytes_last` saves and the milliseconds since the last
stall check (`stall_check.elapsed()`).  Each tick ends in
`sleep(Duration::from_millis(100))`, so `sinceStallCheck` grows by 100
per tick and restarts at 100 on the tick after a passed check. -/

/-- Stall-detection state of `transfer_monitor`. -/
structure MonitorState where
  stallUsbLast : Nat
  stallTcpLast : Nat
  /-- milliseconds of `stall_check.elapsed()` at this tick. -/
  sinceStallCheck : Nat
  deriving DecidableEq, Repr

/-- One 100 ms tick of `transfer_monitor`'s loop, given the current counter
loads `usbOut` and `tcpOut` and `read_timeout` in milliseconds. -/
def transfer_monitor_step (read_timeout usbOut tcpOut : Nat)
    (s : MonitorState) : Except String MonitorState :=
  if s.sinceStallCheck > read_timeout then
    let deltaUsb := usbOut - s.stallUsbLast
    let deltaTcp := tcpOut - s.stallTcpLast
    if deltaUsb = 0 ∨ deltaTcp = 0 then
      .error "unexpected transfer stall"
    else
      .ok ⟨usbOut, tcpOut, 100⟩
  else
    .ok ⟨s.stallUsbLast, s.stallTcpLast, s.sinceStallCheck + 100⟩

/-! ### io_loop (src/io_uring.rs lines 262-441)

`io_loop` binds the TCP listener once, before entering its infinite loop.
Each iteration awaits `tcp_start`, then `accept`s with a 30 s timeout;
on timeout or accept error it logs, fires `need_restart.notify_one()` and
`continue`s — the listener is untouched.  On an accepted client the `?`
operator can propagate `set_nodelay` or USB-open errors out of `io_loop`;
otherwise the session tasks run, are torn down, and `need_restart` fires.
The embedding scripts each iteration's external outcomes and records the
observable events. -/

/-- Observable events of `io_loop`. -/
inductive IoEvent where
  /-- `TcpListener::bind`, run once before the loop. -/
  | bindListener
  /-- `tcp_start.notified().await`. -/
  | waitTcpStart
  /-- `listener.accept()` delivered a client. -/
  | tcpAccepted
  /-- the proxy session ran and was torn down. -/
  | sessionEnded
  /-- `need_restart.notify_one()`. -/
  | needRestartFired
  deriving DecidableEq, Repr

/-- External outcomes scripted for one `io_loop` iteration. -/
structure IoIterEnv where
  /-- `none`: the accept timed out (30 s) or failed. -/
  accept : Option Unit
  /-- result of `stream.set_nodelay(true)` (followed by `?`). -/
  nodelay : Except String Unit
  /-- result of opening `/dev/usb_accessory` (followed by `?`). -/
  openUsb : Except String Unit

/-- How one `io_loop` iteration ends. -/
inductive IoIterResult where
  /-- the loop body ran to `continue` or to its end; loop again. -/
  | looped (events : List IoEvent)
  /-- a `?` propagated: `io_loop` returns this error. -/
  | returned (e : String) (events : List IoEvent)
  deriving DecidableEq, Repr

/-- One iteration of `io_loop`'s loop. -/
def io_loop_iteration (env : IoIterEnv) : IoIterResult :=
  match env.accept with
  | none => .looped [.waitTcpStart, .needRestartFired]
  | some _ =>
      match env.nodelay with
      | .error e => .returned e [.waitTcpStart, .tcpAccepted]
      | .ok _ =>
          match env.openUsb with
          | .error e => .returned e [.waitTcpStart, .tcpAccepted]
          | .ok _ =>
              .looped [.waitTcpStart, .tcpAccepted, .sessionEnded,
                       .needRestartFired]

/-- Run `io_loop` iterations over a script; first propagated error stops
the run. -/
def io_loop_run : List IoIterEnv → Option String × List IoEvent
  | [] => (none, [])
  | env :: rest =>
      match io_loop_iteration env with
      | .returned e evs => (some e, evs)
      | .looped evs =>
          let r := io_loop_run rest
          (r.1, evs ++ r.2)

/-- `io_loop` as observed from outside: the single bind, then the loop. -/
def io_loop_trace (envs : List IoIterEnv) : Option String × List IoEvent :=
  let r := io_loop_run envs
  (r.1, IoEvent.bindListener :: r.2)

/-! ## Theorems settling the claims -/

/-- Claim C2: when the MessageID parsed from the 4-byte header differs from
the expected id, `read_message` fails with the protocol-mismatch error
carrying the got and expected ids, and the stream retains everything after
the header — no body bytes are consumed. -/
theorem read_message_mismatch_consumes_header_only (id : MessageId)
    (input : List Nat) (hlen : 4 ≤ input.length)
    (hne : fromBe16 input[2]! input[3]! ≠ id.toU16) :
    read_message id input =
      (.error (.protocolMismatch (fromBe16 input[2]! input[3]!) id),
       input.drop 4) := by
  unfold read_message
  simp [hlen, hne]

/-- Witness for C2: injecting a `WifiInfoResponse` frame (id 3) where
`WifiInfoRequest` (id 2) is expected fails with the mismatch error and
leaves the two body bytes unconsumed. -/
theorem read_message_mismatch_witness :
    read_message .WifiInfoRequest [0, 5, 0, 3, 9, 9] =
      (.error (.protocolMismatch 3 .WifiInfoRequest), [9, 9]) :=
  read_message_mismatch_consumes_header_only .WifiInfoRequest
    [0, 5, 0, 3, 9, 9] (by decide) (by decide)

/-- Claim C3: a `read_message` expecting `WifiConnectStatus` whose frame
announces a body of `len ≥ 2` bytes succeeds exactly when the second body
byte is zero, and fails with the phone-cannot-join error otherwise; either
way the whole body is consumed. -/
theorem read_message_connect_status (len : Nat) (body rest : List Nat)
    (hb : body.length = len) (h2 : 2 ≤ len) (hlt : len < 65536) :
    read_message .WifiConnectStatus (be16 len ++ be16 6 ++ body ++ rest) =
      (if body[1]! = 0 then .ok (HEADER_LEN + len)
       else .error .phoneWifiJoinFailed, rest) := by
  have hinput : be16 len ++ be16 6 ++ body ++ rest =
      (len / 256 % 256) :: (len % 256) :: 0 :: 6 :: (body ++ rest) := by
    simp [be16]
  have hbe : fromBe16 (len / 256 % 256) (len % 256) = len := by
    unfold fromBe16; omega
  rw [hinput]
  unfold read_message
  simp only [List.length_cons, List.getElem!_cons_zero, List.getElem!_cons_succ,
    List.drop_succ_cons, List.drop_zero, hbe]
  have h4 : 4 ≤ (body ++ rest).length + 1 + 1 + 1 + 1 := by omega
  have hid : fromBe16 0 6 = MessageId.toU16 .WifiConnectStatus := by decide
  have hlen0 : ¬ len = 0 := by omega
  have hfits : len ≤ (body ++ rest).length := by
    simp [List.length_append]; omega
  have htake : (body ++ rest).take len = body := by
    rw [List.take_append_of_le_length (by omega), ← hb, List.take_length]
  have hdrop : (body ++ rest).drop len = rest := by
    rw [List.drop_append_of_le_length (by omega), ← hb, List.drop_length,
      List.nil_append]
  simp only [h4, if_true, hid, ite_not, if_pos, htake, hdrop, hfits]
  by_cases hbyte : body[1]! = 0
  · simp [hbyte, hlen0, hfits]
  · simp [hbyte, hlen0, hfits, h2]

/-- Witness for C3: the all-fine status body `[0x08, 0x00]` succeeds and the
cannot-join body `[0x08, 0xFD, 0xFF, ..., 0x01]` fails. -/
theorem read_message_connect_status_witness :
    read_message .WifiConnectStatus [0, 2, 0, 6, 8, 0] =
      (.ok 6, []) ∧
    read_message .WifiConnectStatus
      [0, 11, 0, 6, 8, 253, 255, 255, 255, 255, 255, 255, 255, 255, 1] =
      (.error .phoneWifiJoinFailed, []) := by
  have h1 := read_message_connect_status 2 [8, 0] [] (by decide) (by decide)
    (by decide)
  have h2 := read_message_connect_status 11
    [8, 253, 255, 255, 255, 255, 255, 255, 255, 255, 1] [] (by decide)
    (by decide) (by decide)
  exact ⟨by simpa using h1, by simpa using h2⟩

/-- Claim C6 (code evaluation): `send_message` does not reject a body longer
than 65535 bytes — `data.len() as u16` truncates, so the emitted frame's
2-byte length header declares `data.length % 65536` body bytes while all
`data.length` body bytes are appended after the header; for every oversize
body the header therefore disagrees with the appended body, with no error. -/
theorem send_message_truncates_oversize_body (id : MessageId)
    (data : List Nat) (hlong : 65535 < data.length) :
    declaredBodyLen (send_message id data) = data.length % 65536 ∧
    appendedBodyLen (send_message id data) = data.length ∧
    declaredBodyLen (send_message id data) ≠
      appendedBodyLen (send_message id data) := by
  have hpkt : send_message id data =
      (data.length % 65536 / 256 % 256) :: (data.length % 65536 % 256) ::
      (id.toU16 % 65536 / 256 % 256) :: (id.toU16 % 65536 % 256) :: data := by
    simp [send_message, be16]
  have hdecl : declaredBodyLen (send_message id data) =
      data.length % 65536 := by
    rw [hpkt]
    simp only [declaredBodyLen, List.getElem!_cons_zero,
      List.getElem!_cons_succ, fromBe16]
    omega
  have happ : appendedBodyLen (send_message id data) = data.length := by
    rw [hpkt]
    simp only [appendedBodyLen, List.length_cons, HEADER_LEN]
    omega
  refine ⟨hdecl, happ, ?_⟩
  rw [hdecl, happ]
  omega

/-- Witness for C6: a 65536-byte body yields a frame declaring 0 body bytes
in its header while 65536 body bytes follow — and `send_message` reports no
error. -/
theorem send_message_truncates_oversize_body_witness :
    declaredBodyLen (send_message .WifiStartRequest (List.replicate 65536 0))
      = 0 ∧
    appendedBodyLen (send_message .WifiStartRequest (List.replicate 65536 0))
      = 65536 := by
  have h := send_message_truncates_oversize_body .WifiStartRequest
    (List.replicate 65536 0) (by rw [List.length_replicate]; omega)
  constructor
  · have h1 := h.1
    rw [List.length_replicate, Nat.mod_self] at h1
    exact h1
  · have h2 := h.2.1
    rw [List.length_replicate] at h2
    exact h2

/-- Claim C5: at every 100 ms tick of `transfer_monitor` where more than
`read_timeout` milliseconds have elapsed since the previous stall check, a
zero byte-count delta in either direction makes the step return the
transfer-stall error at that very tick, while two nonzero deltas let the
monitor continue with the saves reset. -/
theorem transfer_monitor_stall_watchdog (rt usbOut tcpOut : Nat)
    (s : MonitorState) (helapsed : s.sinceStallCheck > rt)
    (_hu : s.stallUsbLast ≤ usbOut) (_ht : s.stallTcpLast ≤ tcpOut) :
    (usbOut - s.stallUsbLast = 0 ∨ tcpOut - s.stallTcpLast = 0 →
      transfer_monitor_step rt usbOut tcpOut s =
        .error "unexpected transfer stall") ∧
    (usbOut - s.stallUsbLast ≠ 0 → tcpOut - s.stallTcpLast ≠ 0 →
      transfer_monitor_step rt usbOut tcpOut s = .ok ⟨usbOut, tcpOut, 100⟩) := by
  unfold transfer_monitor_step
  constructor
  · intro h
    simp [helapsed, h]
  · intro h1 h2
    simp [helapsed, h1, h2]

/-- Witness for C5: with `read_timeout` 1000 ms elapsed 1100 ms ago, frozen
USB bytes (50 → 50) stall-fail the monitor, while 50 → 51 and 40 → 60
continue it. -/
theorem transfer_monitor_stall_watchdog_witness :
    transfer_monitor_step 1000 50 60 ⟨50, 40, 1100⟩ =
      .error "unexpected transfer stall" ∧
    transfer_monitor_step 1000 51 60 ⟨50, 40, 1100⟩ = .ok ⟨51, 60, 100⟩ :=
  ⟨(transfer_monitor_stall_watchdog 1000 50 60 ⟨50, 40, 1100⟩ (by decide)
      (by decide) (by decide)).1 (Or.inl (by decide)),
   (transfer_monitor_stall_watchdog 1000 51 60 ⟨50, 40, 1100⟩ (by decide)
      (by decide) (by decide)).2 (by decide) (by decide)⟩

/-- Claim C9 counterexample: with no `btalias` and a readable serial-number
file whose contents are not 17 characters long, the alias is
`"WirelessAADongle-"` (the suffix is the empty string, the dash stays), not
the bare `"WirelessAADongle"` the claim requires. -/
theorem computeAlias_wrong_length_keeps_dash :
    computeAlias none (some "abc") = "WirelessAADongle-" ∧
    computeAlias none (some "abc") ≠ "WirelessAADongle" := by
  constructor <;> decide

/-- Claim C9 (amended): with no `btalias`, the alias is
`"WirelessAADongle-<xxxxxx>"` with `xxxxxx` = characters 10..16 of the
17-character serial-number file; the bare alias is used exactly when the
file read fails, while a readable file of any other length yields the
empty suffix and alias `"WirelessAADongle-"`. -/
theorem computeAlias_characterization (c : String) :
    computeAlias none none = BT_ALIAS ∧
    (c.length = 17 → computeAlias none (some c) =
      BT_ALIAS ++ "-" ++ String.mk ((c.toList.drop 10).take 6)) ∧
    (c.length ≠ 17 → computeAlias none (some c) = BT_ALIAS ++ "-") ∧
    (∀ a, computeAlias (some a) (some c) = a) := by
  refine ⟨rfl, ?_, ?_, fun a => rfl⟩
  · intro h
    simp [computeAlias, get_cpu_serial_number_suffix, h]
  · intro h
    simp [computeAlias, get_cpu_serial_number_suffix, h]

/-- Witness for the amended C9: a 17-character serial file yields the dashed
six-character suffix, and a 3-character file yields the bare dashed alias. -/
theorem computeAlias_characterization_witness :
    computeAlias none (some "1234567890abcdef!") = "WirelessAADongle-abcdef" ∧
    computeAlias none (some "ab") = "WirelessAADongle-" := by
  constructor
  · have h := (computeAlias_characterization "1234567890abcdef!").2.1
      (by decide)
    simpa using h
  · exact (computeAlias_characterization "ab").2.2.1 (by decide)

/-- Claim C10: an `io_loop` iteration whose MD TCP accept timed out or
failed does not return an error: it fires `need_restart` exactly once and
loops again (the next iteration starts by waiting on `tcp_start`); across
any run the listener-bind event occurs exactly once, before the loop. -/
theorem io_loop_accept_failure_restarts (env : IoIterEnv)
    (envs : List IoIterEnv) (hacc : env.accept = none) :
    io_loop_iteration env =
      .looped [.waitTcpStart, .needRestartFired] ∧
    (∀ e evs, io_loop_iteration env ≠ .returned e evs) ∧
    (io_loop_trace envs).2.count .bindListener = 1 := by
  refine ⟨?_, ?_, ?_⟩
  · simp [io_loop_iteration, hacc]
  · intro e evs
    simp [io_loop_iteration, hacc]
  · have hrun : ∀ es : List IoIterEnv,
        (io_loop_run es).2.count IoEvent.bindListener = 0 := by
      intro es
      induction es with
      | nil => simp [io_loop_run]
      | cons env0 rest ih =>
          rcases env0 with ⟨acc, nd, ou⟩
          cases acc with
          | none =>
              simp [io_loop_run, io_loop_iteration, ih]
          | some u =>
              cases nd with
              | error e => simp [io_loop_run, io_loop_iteration]
              | ok v =>
                  cases ou with
                  | error e => simp [io_loop_run, io_loop_iteration]
                  | ok w =>
                      simp [io_loop_run, io_loop_iteration, ih]
    simp [io_loop_trace, List.count_cons, hrun envs]

/-- Witness for C10: a script of one timed-out accept followed by one served
session; the failed iteration only waits and fires `need_restart`, and the
whole trace binds the listener once. -/
theorem io_loop_accept_failure_restarts_witness :
    io_loop_iteration ⟨none, .ok (), .ok ()⟩ =
      .looped [.waitTcpStart, .needRestartFired] ∧
    (io_loop_trace [⟨none, .ok (), .ok ()⟩,
      ⟨some (), .ok (), .ok ()⟩]).2.count .bindListener = 1 :=
  ⟨(io_loop_accept_failure_restarts ⟨none, .ok (), .ok ()⟩ [] rfl).1,
   (io_loop_accept_failure_restarts ⟨none, .ok (), .ok ()⟩
      [⟨none, .ok (), .ok ()⟩, ⟨some (), .ok (), .ok ()⟩] rfl).2.2⟩

/-- Claim C7 counterexample: a header read that returns 3 bytes (stream ends
after 3 bytes) makes the frame-aware `copy` iteration take the
`n != HEADER_LENGTH` branch and `return Ok(())` — a silent successful
return after a short nonzero header read, with no retry and no error. -/
theorem copy_short_header_silent_success :
    copyIterFF [1, 2, 3] [10] = .shortHeader 3 ∧
    copyTaskJoin (.shortHeader 3) = some (.ok ()) :=
  ⟨by decide, rfl⟩

/-- Claim C7 (amended): the frame-aware `copy` iteration issues a single
read for the 4-byte header and proceeds to parse only when it returns
exactly 4 bytes; a zero-byte read ends the copy as EOF, and a short nonzero
header read (1-3 bytes) also makes `copy` return `Ok(())` silently — it is
never retried, never an error, and nothing is written. -/
theorem copy_header_read_single_attempt (stream sched : List Nat) :
    (headerReadLen stream sched = 0 → copyIterFF stream sched = .eofClean) ∧
    (0 < headerReadLen stream sched →
      headerReadLen stream sched ≠ HEADER_LENGTH →
      copyIterFF stream sched = .shortHeader (headerReadLen stream sched) ∧
      copyTaskJoin (copyIterFF stream sched) = some (.ok ())) ∧
    (headerReadLen stream sched ≠ HEADER_LENGTH →
      ∀ out rest sc, copyIterFF stream sched ≠ .wrote out rest sc) := by
  refine ⟨?_, ?_, ?_⟩
  · intro h
    simp [copyIterFF, h]
  · intro h0 hne
    have hz : ¬ headerReadLen stream sched = 0 := by omega
    refine ⟨by simp [copyIterFF, hz, hne], ?_⟩
    simp [copyIterFF, hz, hne, copyTaskJoin]
  · intro hne out rest sc
    by_cases h0 : headerReadLen stream sched = 0
    · simp [copyIterFF, h0]
    · simp [copyIterFF, h0, hne]

/-- Witness for the amended C7: a one-byte stream gives a 1-byte header
read, a silent `Ok(())` return with nothing written. -/
theorem copy_header_read_single_attempt_witness :
    copyIterFF [9] [5] = .shortHeader (headerReadLen [9] [5]) ∧
    copyTaskJoin (copyIterFF [9] [5]) = some (.ok ()) :=
  (copy_header_read_single_attempt [9] [5]).2.1 (by decide) (by decide)

/-- Claim C8: when the parsed header announces a message that does not fit
in the 16 KiB buffer, the frame-aware `copy` iteration panics; joining the
panicked task gives a `JoinError`, which `flatten` surfaces to the
`try_join` supervisor as an error — never a silent pass-through; and the
branch is unreachable whenever the announced total size fits the buffer. -/
theorem copy_oversize_panic_surfaces (stream sched : List Nat) :
    (copyIterFF stream sched = .oversize →
      flatten (copyTaskJoin (copyIterFF stream sched)) =
        .error "handling failed" ∧
      BUFFER_LEN < HEADER_LENGTH + msgLen (stream.take HEADER_LENGTH)) ∧
    (HEADER_LENGTH + msgLen (stream.take HEADER_LENGTH) ≤ BUFFER_LEN →
      copyIterFF stream sched ≠ .oversize) := by
  constructor
  · intro hov
    refine ⟨by rw [hov]; rfl, ?_⟩
    rw [copyIterFF] at hov
    split at hov
    · simp at hov
    · split at hov
      · simp at hov
      · simp only [] at hov
        split at hov
        · omega
        · split at hov <;> simp at hov
  · intro hle hov
    rw [copyIterFF] at hov
    split at hov
    · simp at hov
    · split at hov
      · simp at hov
      · simp only [] at hov
        split at hov
        · omega
        · split at hov <;> simp at hov

/-- Witness for C8: the header `[0x01, 0x00, 0xFF, 0xFF]` announces a
65535-byte message; the iteration panics and the supervisor sees the join
error. -/
theorem copy_oversize_panic_surfaces_witness :
    flatten (copyTaskJoin (copyIterFF [1, 0, 255, 255] [10])) =
      .error "handling failed" ∧
    BUFFER_LEN < HEADER_LENGTH + msgLen ([1, 0, 255, 255].take HEADER_LENGTH)
    :=
  (copy_oversize_panic_surfaces [1, 0, 255, 255] [10]).1 (by decide)


/-- Claim C1: every successful `bluetooth_setup_connection` run performs the
five handshake stages strictly in order — send WifiStartRequest, receive
WifiInfoRequest, send WifiInfoResponse, receive WifiStartResponse, receive
WifiConnectStatus — and only then notifies `tcp_start` exactly once and
shuts the RFCOMM stream down; every erroring run never notifies `tcp_start`
and never shuts the stream down. -/
theorem handshake_stage_order (startReq info input : List Nat) :
    ((bluetooth_setup_connection startReq info input).1 = .ok () →
      (bluetooth_setup_connection startReq info input).2 = successTrace ∧
      tcpNotifyCount (bluetooth_setup_connection startReq info input).2 = 1) ∧
    (∀ e, (bluetooth_setup_connection startReq info input).1 = .error e →
      tcpNotifyCount (bluetooth_setup_connection startReq info input).2 = 0 ∧
      HsEvent.streamShutdown ∉
        (bluetooth_setup_connection startReq info input).2) := by
  rcases h1 : read_message .WifiInfoRequest input with ⟨r1, rest1⟩
  cases r1 with
  | error e1 =>
      have heq : bluetooth_setup_connection startReq info input =
          (.error e1, [.sent .WifiStartRequest]) := by
        simp [bluetooth_setup_connection, h1]
      rw [heq]
      constructor
      · intro hok
        simp at hok
      · intro e he
        exact ⟨by simp [tcpNotifyCount], by simp⟩
  | ok n1 =>
      rcases h2 : read_message .WifiStartResponse rest1 with ⟨r2, rest2⟩
      cases r2 with
      | error e2 =>
          have heq : bluetooth_setup_connection startReq info input =
              (.error e2, [.sent .WifiStartRequest,
                .received .WifiInfoRequest, .sent .WifiInfoResponse]) := by
            simp [bluetooth_setup_connection, h1, h2]
          rw [heq]
          constructor
          · intro hok
            simp at hok
          · intro e he
            exact ⟨by simp [tcpNotifyCount], by simp⟩
      | ok n2 =>
          rcases h3 : read_message .WifiConnectStatus rest2 with ⟨r3, rest3⟩
          cases r3 with
          | error e3 =>
              have heq : bluetooth_setup_connection startReq info input =
                  (.error e3, [.sent .WifiStartRequest,
                    .received .WifiInfoRequest, .sent .WifiInfoResponse,
                    .received .WifiStartResponse]) := by
                simp [bluetooth_setup_connection, h1, h2, h3]
              rw [heq]
              constructor
              · intro hok
                simp at hok
              · intro e he
                exact ⟨by simp [tcpNotifyCount], by simp⟩
          | ok n3 =>
              have heq : bluetooth_setup_connection startReq info input =
                  (.ok (), successTrace) := by
                simp [bluetooth_setup_connection, h1, h2, h3, successTrace]
              rw [heq]
              constructor
              · intro hok
                exact ⟨rfl, by decide⟩
              · intro e he
                simp at he

/-- Witness for C1: the happy-handshake byte stream — empty-body
`WifiInfoRequest`, empty-body `WifiStartResponse`, `WifiConnectStatus` with
body `[0x08, 0x00]` — succeeds with the exact five-stage success trace and
one `tcp_start` notification. -/
theorem handshake_stage_order_witness :
    (bluetooth_setup_connection [] []
      [0, 0, 0, 2, 0, 0, 0, 7, 0, 2, 0, 6, 8, 0]).1 = .ok () ∧
    (bluetooth_setup_connection [] []
      [0, 0, 0, 2, 0, 0, 0, 7, 0, 2, 0, 6, 8, 0]).2 = successTrace ∧
    tcpNotifyCount (bluetooth_setup_connection [] []
      [0, 0, 0, 2, 0, 0, 0, 7, 0, 2, 0, 6, 8, 0]).2 = 1 := by
  have h := (handshake_stage_order [] []
    [0, 0, 0, 2, 0, 0, 0, 7, 0, 2, 0, 6, 8, 0]).1 (by rfl)
  exact ⟨by rfl, h.1, h.2⟩


/-- The body-read loop reads exactly the announced bytes: started with
`acc` already in the buffer and `remain` bytes of `body` still due, it ends
with `acc ++ body` in the buffer and `rest` untouched, for every read
schedule. -/
theorem readBodyAux_exact (fuel : Nat) :
    ∀ (remain : Nat) (acc body rest sched : List Nat),
      body.length = remain → remain ≤ fuel →
      ∃ sc, readBodyAux fuel remain acc (body ++ rest) sched =
        some (acc ++ body, rest, sc) := by
  induction fuel with
  | zero =>
      intro remain acc body rest sched hb hle
      have h0 : remain = 0 := Nat.le_zero.mp hle
      subst h0
      have hbody : body = [] := List.length_eq_zero.mp hb
      subst hbody
      exact ⟨sched, by simp [readBodyAux]⟩
  | succ f ih =>
      intro remain acc body rest sched hb hle
      cases remain with
      | zero =>
          have hbody : body = [] := List.length_eq_zero.mp hb
          subst hbody
          exact ⟨sched, by simp [readBodyAux]⟩
      | succ r =>
          have hbody_ne : body ≠ [] := by
            intro h
            rw [h] at hb
            simp at hb
          have hne : body ++ rest ≠ [] := by
            simp [hbody_ne]
          have hlapp : (body ++ rest).length = r + 1 + rest.length := by
            simp [hb]
          have hk_eq : readLen (body ++ rest) (r + 1) (sched.headD 0) =
              min (min (max 1 (sched.headD 0)) (r + 1))
                ((body ++ rest).length) := by
            simp [readLen, hne]
          set k := readLen (body ++ rest) (r + 1) (sched.headD 0) with hk
          have hk1 : 1 ≤ k := by
            rw [hk_eq]
            omega
          have hkr : k ≤ r + 1 := by
            rw [hk_eq]
            omega
          have hkb : k ≤ body.length := by omega
          have hlen : (body.drop k).length = (r + 1) - k := by
            simp [hb]
          have hfle : (r + 1) - k ≤ f := by omega
          obtain ⟨sc, hsc⟩ := ih ((r + 1) - k) (acc ++ body.take k)
            (body.drop k) rest sched.tail hlen hfle
          refine ⟨sc, ?_⟩
          rw [readBodyAux]
          simp only [hne, if_false, ← hk]
          rw [List.take_append_of_le_length hkb,
            List.drop_append_of_le_length hkb]
          rw [hsc, List.append_assoc, List.take_append_drop]

/-- `readBody` under any schedule returns the full announced body appended
to the already-read prefix, leaving the rest of the stream intact. -/
theorem readBody_exact (acc body rest sched : List Nat) (remain : Nat)
    (hb : body.length = remain) :
    ∃ sc, readBody acc (body ++ rest) sched remain =
      some (acc ++ body, rest, sc) :=
  readBodyAux_exact remain remain acc body rest sched hb (Nat.le_refl remain)

/-- Claim C4: in frame-aware pass-through mode, a well-formed frame (4-byte
header, body exactly as long as the header announces, total within the 16
KiB buffer) is written to the destination byte-identically and in order, and
`bytes_written` grows by exactly the number of bytes written. -/
theorem copy_full_frames_preserves_bytes (hdr body rest sched : List Nat)
    (hh : hdr.length = HEADER_LENGTH) (hb : body.length = msgLen hdr)
    (hfit : HEADER_LENGTH + msgLen hdr ≤ BUFFER_LEN)
    (hsched : HEADER_LENGTH ≤ sched.headD 0) :
    ∃ sc, copyIterFF (hdr ++ body ++ rest) sched =
        .wrote (hdr ++ body) rest sc ∧
      iterWriteDelta (copyIterFF (hdr ++ body ++ rest) sched) =
        HEADER_LENGTH + msgLen hdr := by
  have hh4 : hdr.length = 4 := hh
  have hs4 : 4 ≤ sched.headD 0 := hsched
  rw [List.append_assoc]
  have hne : hdr ++ (body ++ rest) ≠ [] := by
    intro h
    have := congrArg List.length h
    simp [hh4] at this
  have hlen_stream : 4 ≤ (hdr ++ (body ++ rest)).length := by
    simp [hh4]
  have hkeq : headerReadLen (hdr ++ (body ++ rest)) sched = 4 := by
    rw [headerReadLen, readLen, if_neg hne]
    show min (min (max 1 (sched.headD 0)) HEADER_LENGTH) _ = 4
    rw [show HEADER_LENGTH = 4 from rfl]
    omega
  have htake : (hdr ++ (body ++ rest)).take 4 = hdr := by
    rw [List.take_append_of_le_length (by omega), ← hh4, List.take_length]
  have hdrop : (hdr ++ (body ++ rest)).drop 4 = body ++ rest := by
    rw [List.drop_append_of_le_length (by omega), ← hh4, List.drop_length,
      List.nil_append]
  obtain ⟨sc, hsc⟩ := readBody_exact hdr body rest sched.tail (msgLen hdr) hb
  have heq : copyIterFF (hdr ++ (body ++ rest)) sched =
      .wrote (hdr ++ body) rest sc := by
    rw [copyIterFF]
    simp only [hkeq]
    rw [if_neg (by omega), if_neg (by simp [HEADER_LENGTH])]
    simp only [show HEADER_LENGTH = 4 from rfl, htake, hdrop]
    rw [if_neg (by omega)]
    rw [hsc]
  refine ⟨sc, heq, ?_⟩
  rw [heq]
  simp [iterWriteDelta, hh4, hb, HEADER_LENGTH]


/-- Witness for C4: the spec frame `channel=0x01 flags=0x02 len=0x0010`
with 4-byte `total_len` and 16 body bytes — 24 bytes in, the identical 24
bytes out, counter incremented by 24. -/
theorem copy_full_frames_preserves_bytes_witness :
    copyIterFF [1, 2, 0, 16, 0, 0, 1, 0,
      1, 2, 3, 4, 5, 6, 7, 8, 9, 10, 11, 12, 13, 14, 15, 16] [24] =
      .wrote [1, 2, 0, 16, 0, 0, 1, 0,
        1, 2, 3, 4, 5, 6, 7, 8, 9, 10, 11, 12, 13, 14, 15, 16] [] [] ∧
    iterWriteDelta (copyIterFF [1, 2, 0, 16, 0, 0, 1, 0,
      1, 2, 3, 4, 5, 6, 7, 8, 9, 10, 11, 12, 13, 14, 15, 16] [24]) = 24 := by
  obtain ⟨sc, h1, h2⟩ := copy_full_frames_preserves_bytes [1, 2, 0, 16]
    [0, 0, 1, 0, 1, 2, 3, 4, 5, 6, 7, 8, 9, 10, 11, 12, 13, 14, 15, 16]
    [] [24] (by decide) (by decide) (by decide) (by decide)
  exact ⟨by decide, h2⟩


end AAProxy
